import Mathlib

/-
  Verification of the payment-failure notification relay (src/index.js)
  against its natural-language specification.

  Shallow embedding notes:
  - JavaScript strings are Lean String; template-literal interpolation is
    embedded as String append, mirroring the literal text of the source.
  - A possibly-absent payload field is an Option; interpolating an absent
    value yields the text "undefined", as in JavaScript.
  - The JavaScript logical-or defaulting pattern (x or a literal) treats
    both an absent value and the empty string as falsy, and is embedded by
    jsOr.  The conditional operator on a numeric field treats both absence
    and 0 as falsy, which the invoice branch embeds directly.
  - Property access on an undefined object, and calling toUpperCase on an
    undefined field, throw a TypeError; throwing code is embedded in the
    Except monad with the (engine-style) message as the error value.
  - Arithmetic on an absent numeric field yields NaN, which toFixed turns
    into the text "NaN" and the Date constructor into "Invalid Date";
    these non-throwing degradations are embedded as those literal strings.
  - new Date(ms).toLocaleString() depends only on ms and on the ambient
    locale and time zone; it is embedded as an abstract parameter
    locale : Int -> String applied to the millisecond value.
  - The Gmail delivery call is the external notifier capability; it is
    embedded as an abstract parameter send returning Except String Unit
    whose error value is the thrown error message.
  - Wall-clock timestamps attached to log entries are not modelled; a log
    entry is identified with its message string, which is what every claim
    speaks about.  console.log output is ignored.
-/

/-- The payload object read from data.object.  Every field the source ever
reads is present, each as an Option because the provider may omit it. -/
structure StripeObject where
  customer : Option String := none
  amount : Option Nat := none
  currency : Option String := none
  failure_code : Option String := none
  failure_message : Option String := none
  id : Option String := none
  created : Option Int := none
  amount_due : Option Nat := none
  number : Option String := none
  subscription : Option String := none
  attempt_count : Option Nat := none
  next_payment_attempt : Option Int := none

/-- The data envelope of a webhook event; data.object may be absent. -/
structure EventData where
  object : Option StripeObject := none

/-- An inbound webhook event, src/index.js line 141: { type, data }. -/
structure Event where
  type : String
  data : EventData

/-- The value returned by formatFailureEmail: an object with subject and
body properties, either of which is undefined when no branch assigned it
(src/index.js lines 60 and 102). -/
structure RenderOut where
  subject : Option String
  body : Option String

/-- JavaScript string interpolation of a possibly-undefined string value. -/
def jsStr : Option String → String
  | some s => s
  | none => "undefined"

/-- JavaScript string interpolation of a possibly-undefined number. -/
def jsNum : Option Nat → String
  | some n => toString n
  | none => "undefined"

/-- JavaScript defaulting via logical-or: an absent value and the empty
string are both falsy and fall through to the default. -/
def jsOr : Option String → String → String
  | none, d => d
  | some s, d => if s = "" then d else s

/-- Embeds (n / 100).toFixed(2) for an integer amount n of minor currency
units (src/index.js line 65), under exact arithmetic: the integer part
followed by a dot and exactly two fraction digits. -/
def toFixed2 (n : Nat) : String :=
  toString (n / 100) ++ "." ++ toString (n % 100 / 10) ++ toString (n % 10)

/-- Embeds String.prototype.toUpperCase, faithful on ASCII
(src/index.js lines 66 and 85). -/
def toUpperCaseJs (s : String) : String :=
  String.mk (s.data.map Char.toUpper)

/-- Embedding of formatFailureEmail (src/index.js lines 58 to 103).
The abstract locale parameter stands for ms => new Date(ms).toLocaleString().
A thrown TypeError is an Except.error carrying the engine message. -/
def formatFailureEmail (locale : Int → String) (event : Event) :
    Except String RenderOut :=
  if event.type = "charge.failed" then
    match event.data.object with
    | none =>
      -- line 64: charge.customer with charge undefined throws
      Except.error "Cannot read properties of undefined (reading customer)"
    | some charge =>
      match charge.currency with
      | none =>
        -- line 66: charge.currency.toUpperCase() with currency undefined throws
        Except.error "Cannot read properties of undefined (reading toUpperCase)"
      | some cur =>
        let amount := match charge.amount with
          | some a => toFixed2 a
          | none => "NaN"
        let currency := toUpperCaseJs cur
        let timeStr := match charge.created with
          | some t => locale (t * 1000)
          | none => "Invalid Date"
        Except.ok
          { subject := some ("💳 Payment Failure Alert - $" ++ amount ++ " " ++ currency)
            body := some ("\n      <h2>🚨 Charge Failed</h2>\n      <p><strong>Amount:</strong> $"
              ++ amount ++ " " ++ currency
              ++ "</p>\n      <p><strong>Customer ID:</strong> "
              ++ jsOr charge.customer "Guest"
              ++ "</p>\n      <p><strong>Failure Code:</strong> "
              ++ jsOr charge.failure_code "Unknown"
              ++ "</p>\n      <p><strong>Failure Message:</strong> "
              ++ jsOr charge.failure_message "No details provided"
              ++ "</p>\n      <p><strong>Charge ID:</strong> "
              ++ jsStr charge.id
              ++ "</p>\n      <p><strong>Time:</strong> "
              ++ timeStr
              ++ "</p>\n      \n      <hr>\n      <p><small>View in Stripe Dashboard: <a href=\"https://dashboard.stripe.com/payments/"
              ++ jsStr charge.id
              ++ "\">Open Charge</a></small></p>\n    ") }
  else if event.type = "invoice.payment_failed" then
    match event.data.object with
    | none =>
      -- line 83: invoice.customer with invoice undefined throws
      Except.error "Cannot read properties of undefined (reading customer)"
    | some invoice =>
      match invoice.currency with
      | none =>
        -- line 85: invoice.currency.toUpperCase() with currency undefined throws
        Except.error "Cannot read properties of undefined (reading toUpperCase)"
      | some cur =>
        let amount := match invoice.amount_due with
          | some a => toFixed2 a
          | none => "NaN"
        let currency := toUpperCaseJs cur
        -- line 95: the conditional operator; absence and 0 are both falsy
        let nextAttempt := match invoice.next_payment_attempt with
          | some t => if t = 0 then "No retry scheduled" else locale (t * 1000)
          | none => "No retry scheduled"
        Except.ok
          { subject := some ("📋 Subscription Payment Failure - $" ++ amount ++ " " ++ currency)
            body := some ("\n      <h2>🚨 Invoice Payment Failed</h2>\n      <p><strong>Amount:</strong> $"
              ++ amount ++ " " ++ currency
              ++ "</p>\n      <p><strong>Customer ID:</strong> "
              ++ jsStr invoice.customer
              ++ "</p>\n      <p><strong>Invoice Number:</strong> "
              ++ jsOr invoice.number "Draft"
              ++ "</p>\n      <p><strong>Subscription ID:</strong> "
              ++ jsOr invoice.subscription "N/A"
              ++ "</p>\n      <p><strong>Attempt Count:</strong> "
              ++ jsNum invoice.attempt_count
              ++ "</p>\n      <p><strong>Next Attempt:</strong> "
              ++ nextAttempt
              ++ "</p>\n      \n      <hr>\n      <p><small>View in Stripe Dashboard: <a href=\"https://dashboard.stripe.com/invoices/"
              ++ jsStr invoice.id
              ++ "\">Open Invoice</a></small></p>\n    ") }
  else
    -- no branch assigned subject or body: both are undefined
    Except.ok { subject := none, body := none }

/-- Embedding of addLog (src/index.js lines 10 to 14): push the message,
then drop the oldest entry if the length exceeded 100. -/
def addLog (log : List String) (message : String) : List String :=
  let log' := log ++ [message]
  if log'.length > 100 then log'.tail else log'

/-- The activity log produced by a sequence of appends starting from the
empty log created at process start (src/index.js line 9). -/
def runLog (msgs : List String) : List String :=
  List.foldl addLog [] msgs

/-- The recent-entries query: logs.slice(-n) for positive n
(src/index.js line 133 instantiates it with n = 20). -/
def recent (log : List String) (n : Nat) : List String :=
  log.drop (log.length - n)

/-- The size query: logs.length (src/index.js line 127). -/
def size (log : List String) : Nat :=
  log.length

/-- The processing verdict on one event, per the spec data model: the
three terminal branches of the webhook handler. -/
inductive ProcessingResult where
  | processed
  | ignored
  | failed (detail : String)
deriving DecidableEq

/-- Embedding of sendEmail (src/index.js lines 28 to 56), parametric in
the outcome of the underlying Gmail call: on success it logs the success
line and returns true; on failure it logs the failure line and rethrows. -/
def sendEmail (send : String → String → Except String Unit)
    (subject body : String) : Except String Bool × List String :=
  match send subject body with
  | Except.ok _ => (Except.ok true, ["Email sent successfully to blakeecom02@gmail.com"])
  | Except.error m => (Except.error m, ["Failed to send email: " ++ m])

/-- The observable outcome of one webhook call: the processing verdict,
the HTTP status of the response, the log messages appended (in order),
and the number of delivery attempts made. -/
structure HandleOut where
  result : ProcessingResult
  status : Nat
  logMsgs : List String
  attempts : Nat

/-- Embedding of the POST /webhook handler (src/index.js lines 139 to
163), the handle operation of the spec.  All throwing subcomputations
(rendering, delivery) appear as Except values and every error is caught
here and converted to a Failed verdict, so handle itself is total. -/
def handle (locale : Int → String) (send : String → String → Except String Unit)
    (event : Event) : HandleOut :=
  let received := "Received webhook: " ++ event.type
  if event.type = "charge.failed" ∨ event.type = "invoice.payment_failed" then
    match formatFailureEmail locale event with
    | Except.error m =>
      { result := ProcessingResult.failed m
        status := 500
        logMsgs := [received, "Failed to send notification for " ++ event.type ++ ": " ++ m]
        attempts := 0 }
    | Except.ok out =>
      match sendEmail send (jsStr out.subject) (jsStr out.body) with
      | (Except.ok _, sentLogs) =>
        { result := ProcessingResult.processed
          status := 200
          logMsgs := received :: sentLogs
            ++ ["Payment failure notification sent for event: " ++ event.type]
          attempts := 1 }
      | (Except.error m, sentLogs) =>
        { result := ProcessingResult.failed m
          status := 500
          logMsgs := received :: sentLogs
            ++ ["Failed to send notification for " ++ event.type ++ ": " ++ m]
          attempts := 1 }
  else
    { result := ProcessingResult.ignored
      status := 200
      logMsgs := [received, "Ignored webhook event: " ++ event.type]
      attempts := 0 }

/-- An event type is monitored when it is one of the two recognized
payment-failure types (src/index.js line 145). -/
def knownType (e : Event) : Prop :=
  e.type = "charge.failed" ∨ e.type = "invoice.payment_failed"

instance (e : Event) : Decidable (knownType e) :=
  inferInstanceAs (Decidable (_ ∨ _))

/-- The characters of an append are the appended character lists. -/
theorem data_append (a b : String) : (a ++ b).data = a.data ++ b.data := by
  cases a; cases b; rfl

/-- String append is associative. -/
theorem strAppend_assoc (a b c : String) : a ++ b ++ c = a ++ (b ++ c) := by
  cases a with
  | mk la =>
    cases b with
    | mk lb =>
      cases c with
      | mk lc => exact congrArg String.mk (List.append_assoc la lb lc)

/-- Does the first character list start the second one? -/
def isStartOf : List Char → List Char → Bool
  | [], _ => true
  | _ :: _, [] => false
  | a :: as, b :: bs => a == b && isStartOf as bs

/-- Does the first character list occur contiguously inside the second? -/
def occursIn (sub : List Char) : List Char → Bool
  | [] => sub.isEmpty
  | c :: cs => isStartOf sub (c :: cs) || occursIn sub cs

/-- The substring relation on strings used to state the containment
properties of the spec. -/
def strContains (s sub : String) : Prop :=
  occursIn sub.data s.data = true

instance (s sub : String) : Decidable (strContains s sub) :=
  inferInstanceAs (Decidable (occursIn sub.data s.data = true))

theorem isStartOf_self_append (l t : List Char) : isStartOf l (l ++ t) = true := by
  induction l with
  | nil => rfl
  | cons a as ih => simp [isStartOf, ih]

theorem occursIn_of_isStartOf {sub s : List Char} (h : isStartOf sub s = true) :
    occursIn sub s = true := by
  cases s with
  | nil =>
    cases sub with
    | nil => rfl
    | cons a as => simp [isStartOf] at h
  | cons c cs => simp [occursIn, h]

theorem occursIn_mid (pre sub post : List Char) :
    occursIn sub (pre ++ (sub ++ post)) = true := by
  induction pre with
  | nil => exact occursIn_of_isStartOf (isStartOf_self_append sub post)
  | cons c cs ih => simp [occursIn, ih]

/-- A string equal to prefix-middle-suffix contains the middle. -/
theorem strContains_parts (s pre sub post : String) (h : s = pre ++ (sub ++ post)) :
    strContains s sub := by
  subst h
  show occursIn sub.data (pre ++ (sub ++ post)).data = true
  rw [data_append, data_append]
  exact occursIn_mid _ _ _

/-- A string equal to prefix-suffix contains the suffix. -/
theorem strContains_tail (s pre sub : String) (h : s = pre ++ sub) :
    strContains s sub := by
  subst h
  show occursIn sub.data (pre ++ sub).data = true
  rw [data_append]
  have h2 := occursIn_mid pre.data sub.data []
  simpa using h2

/-- The activity log after any append sequence from the empty log is
exactly the suffix of the last 100 appended messages. -/
theorem runLog_eq (msgs : List String) :
    runLog msgs = msgs.drop (msgs.length - 100) := by
  induction msgs using List.reverseRecOn with
  | nil => rfl
  | append_singleton ms m ih =>
    have hstep : runLog (ms ++ [m]) = addLog (runLog ms) m := by
      simp [runLog, List.foldl_append]
    rw [hstep, ih]
    by_cases hL : ms.length < 100
    · have h0 : ms.length - 100 = 0 := by omega
      have h1 : ms.length + 1 - 100 = 0 := by omega
      have hno : ¬ (ms ++ [m]).length > 100 := by
        simp [List.length_append]; omega
      simp only [h0, List.drop_zero, addLog]
      rw [if_neg hno]
      simp [List.length_append, h1]
    · have hge : 100 ≤ ms.length := by omega
      have hlen : (ms.drop (ms.length - 100)).length = 100 := by
        rw [List.length_drop]; omega
      rw [addLog]
      have hc : (ms.drop (ms.length - 100) ++ [m]).length > 100 := by
        simp [List.length_append, hlen]
      simp only [hc, if_pos]
      obtain ⟨x, xs, hx⟩ : ∃ x xs, ms.drop (ms.length - 100) = x :: xs := by
        cases hcase : ms.drop (ms.length - 100) with
        | nil => rw [hcase] at hlen; simp at hlen
        | cons x xs => exact ⟨x, xs, rfl⟩
      have hxs : xs = ms.drop (ms.length - 99) := by
        have htl := List.tail_drop ms (ms.length - 100)
        rw [hx] at htl
        simpa [show ms.length - 100 + 1 = ms.length - 99 by omega] using htl
      rw [hx]
      have hR : (ms ++ [m]).drop ((ms ++ [m]).length - 100)
          = ms.drop (ms.length - 99) ++ [m] := by
        rw [List.drop_append_eq_append_drop]
        have e1 : (ms ++ [m]).length - 100 = ms.length - 99 := by
          simp only [List.length_append, List.length_cons, List.length_nil]
          omega
        have e2 : ms.length - 99 - ms.length = 0 := by omega
        rw [e1, e2]
        simp
      rw [hR, ← hxs]
      rfl

/-- A concrete locale function for closed instances: a readable rendering
of the millisecond value, standing for one fixed environment locale. -/
def testLocale : Int → String := fun ms => "Date(" ++ toString ms ++ ")"

/-- A notifier whose underlying send always succeeds. -/
def okSend : String → String → Except String Unit := fun _ _ => Except.ok ()

/-- A notifier whose underlying send always fails with the given detail. -/
def failSend (d : String) : String → String → Except String Unit :=
  fun _ _ => Except.error d

/-- The body text of a rendering outcome, empty on a thrown error. -/
def bodyOf : Except String RenderOut → String
  | Except.ok out => jsStr out.body
  | Except.error _ => ""

/-- The length of an append is the sum of the lengths. -/
theorem strLength_append (a b : String) : (a ++ b).length = a.length + b.length := by
  cases a with
  | mk la =>
    cases b with
    | mk lb => exact List.length_append la lb

/-- Rendering a monitored event whose payload object and currency are
present always succeeds with a subject and body. -/
theorem render_ok_aux (locale : Int → String) (e : Event) (o : StripeObject)
    (c : String) (hk : knownType e) (ho : e.data.object = some o)
    (hc : o.currency = some c) :
    ∃ s b, formatFailureEmail locale e = Except.ok ⟨some s, some b⟩ := by
  cases hk with
  | inl ht =>
    simp only [formatFailureEmail, ht, ho, hc, if_pos]
    exact ⟨_, _, rfl⟩
  | inr ht =>
    have hty : ¬ (e.type = "charge.failed") := by rw [ht]; decide
    simp only [formatFailureEmail, ht, ho, hc, if_neg hty, if_pos]
    exact ⟨_, _, rfl⟩

/-- C1 counterexample: on the Ignored path the handler appends two log
entries (the Received entry and the Ignored entry), not one entry total
as the claim states. -/
theorem ignored_path_appends_two_entries :
    (handle testLocale okSend { type := "customer.created", data := {} }).result
      = ProcessingResult.ignored
    ∧ (handle testLocale okSend { type := "customer.created", data := {} }).logMsgs.length = 2
    ∧ ¬ (handle testLocale okSend { type := "customer.created", data := {} }).logMsgs.length = 1 := by
  refine ⟨rfl, rfl, by decide⟩

/-- C1 amended: every path appends the Received entry first; the Ignored
path appends one further entry (two total), the Processed path and the
delivery-failure path append two further entries (three total, the extra
one being the notifier log line of sendEmail), and the rendering-failure
path appends one further entry (two total). -/
theorem handle_log_entry_counts (locale : Int → String)
    (send : String → String → Except String Unit) (e : Event) :
    (handle locale send e).logMsgs.head? = some ("Received webhook: " ++ e.type)
    ∧ (¬ knownType e →
        (handle locale send e).result = ProcessingResult.ignored
        ∧ (handle locale send e).logMsgs.length = 2)
    ∧ (∀ out u, knownType e → formatFailureEmail locale e = Except.ok out →
        send (jsStr out.subject) (jsStr out.body) = Except.ok u →
        (handle locale send e).result = ProcessingResult.processed
        ∧ (handle locale send e).logMsgs.length = 3)
    ∧ (∀ out m, knownType e → formatFailureEmail locale e = Except.ok out →
        send (jsStr out.subject) (jsStr out.body) = Except.error m →
        (handle locale send e).result = ProcessingResult.failed m
        ∧ (handle locale send e).logMsgs.length = 3)
    ∧ (∀ m, knownType e → formatFailureEmail locale e = Except.error m →
        (handle locale send e).result = ProcessingResult.failed m
        ∧ (handle locale send e).logMsgs.length = 2) := by
  refine ⟨?_, ?_, ?_, ?_, ?_⟩
  · by_cases hk : knownType e
    · have hk' : e.type = "charge.failed" ∨ e.type = "invoice.payment_failed" := hk
      cases hf : formatFailureEmail locale e with
      | error m => simp only [handle, if_pos hk', hf]; rfl
      | ok out =>
        cases hs : send (jsStr out.subject) (jsStr out.body) with
        | ok u => simp only [handle, if_pos hk', hf, sendEmail, hs]; rfl
        | error m => simp only [handle, if_pos hk', hf, sendEmail, hs]; rfl
    · have hk' : ¬ (e.type = "charge.failed" ∨ e.type = "invoice.payment_failed") := hk
      simp only [handle, if_neg hk']; rfl
  · intro hnk
    have hk' : ¬ (e.type = "charge.failed" ∨ e.type = "invoice.payment_failed") := hnk
    simp only [handle, if_neg hk']
    refine ⟨?_, ?_⟩ <;> trivial
  · intro out u hk hf hs
    have hk' : e.type = "charge.failed" ∨ e.type = "invoice.payment_failed" := hk
    simp only [handle, if_pos hk', hf, sendEmail, hs]
    refine ⟨?_, ?_⟩ <;> trivial
  · intro out m hk hf hs
    have hk' : e.type = "charge.failed" ∨ e.type = "invoice.payment_failed" := hk
    simp only [handle, if_pos hk', hf, sendEmail, hs]
    refine ⟨?_, ?_⟩ <;> trivial
  · intro m hk hf
    have hk' : e.type = "charge.failed" ∨ e.type = "invoice.payment_failed" := hk
    simp only [handle, if_pos hk', hf]
    refine ⟨?_, ?_⟩ <;> trivial

/-- C1 witness: on a concrete unmonitored event the handler yields the
Ignored verdict and appends exactly two log entries. -/
theorem handle_log_entry_counts_witness :
    (handle testLocale okSend { type := "customer.created", data := {} }).result
      = ProcessingResult.ignored
    ∧ (handle testLocale okSend { type := "customer.created", data := {} }).logMsgs.length = 2 := by
  have h := handle_log_entry_counts testLocale okSend { type := "customer.created", data := {} }
  exact h.2.1 (by decide)

/-- C2 (confirmed): from the empty log, after any sequence of appends the
size never exceeds 100, the last-100 query returns exactly the suffix of
the last min(N, 100) appended messages in append order, and after 105
pairwise-distinct appends the size is 100 and the first 5 messages are
gone. -/
theorem activityLog_bounded_recent (msgs : List String) :
    size (runLog msgs) ≤ 100
    ∧ recent (runLog msgs) 100 = msgs.drop (msgs.length - 100)
    ∧ (recent (runLog msgs) 100).length = min msgs.length 100
    ∧ (msgs.length = 105 → msgs.Nodup →
        size (runLog msgs) = 100
        ∧ ∀ i, i < 5 → ∀ (hlt : i < msgs.length),
            msgs.get ⟨i, hlt⟩ ∉ recent (runLog msgs) 100) := by
  have hrun := runLog_eq msgs
  have h2 : recent (runLog msgs) 100 = msgs.drop (msgs.length - 100) := by
    rw [recent, hrun, List.length_drop]
    rw [show msgs.length - (msgs.length - 100) - 100 = 0 from by omega, List.drop_zero]
  have hb : size (runLog msgs) ≤ 100 := by
    rw [size, hrun, List.length_drop]; omega
  have h3 : (recent (runLog msgs) 100).length = min msgs.length 100 := by
    rw [h2, List.length_drop]; omega
  refine ⟨hb, h2, h3, ?_⟩
  intro h105 hnd
  refine ⟨?_, ?_⟩
  · rw [size, hrun, List.length_drop]; omega
  · intro i h5 hlt
    rw [h2, show msgs.length - 100 = 5 from by omega]
    have hsplit := List.take_append_drop 5 msgs
    have hnd2 : (msgs.take 5 ++ msgs.drop 5).Nodup := by rw [hsplit]; exact hnd
    have hdisj := List.disjoint_of_nodup_append hnd2
    intro hmem
    refine hdisj ?_ hmem
    have hi : i < (msgs.take 5).length := by rw [List.length_take]; omega
    have hsame : msgs.get ⟨i, hlt⟩ = (msgs.take 5).get ⟨i, hi⟩ := by
      simp [List.get_eq_getElem, List.getElem_take]
    rw [hsame]
    exact List.get_mem _ _ _

/-- C2 witness: 105 pairwise-distinct appends leave exactly 100 entries
and the first message is no longer in the last-100 query. -/
theorem activityLog_bounded_recent_witness :
    size (runLog ((List.range 105).map (fun n => toString n))) = 100
    ∧ toString 0 ∉ recent (runLog ((List.range 105).map (fun n => toString n))) 100 := by
  have h := (activityLog_bounded_recent ((List.range 105).map (fun n => toString n))).2.2.2
      (by simp) (by decide)
  refine ⟨h.1, ?_⟩
  have h0 := h.2 0 (by omega) (by simp)
  have he : ((List.range 105).map (fun n => toString n)).get ⟨0, by simp⟩ = toString 0 := rfl
  rw [he] at h0
  exact h0

/-- C3 counterexample: a charge.failed event whose payload object is
present but lacks the currency field makes rendering throw a TypeError
rather than return a NotificationContent. -/
theorem render_missing_currency_throws :
    formatFailureEmail testLocale
        { type := "charge.failed", data := { object := some {} } }
      = Except.error "Cannot read properties of undefined (reading toUpperCase)" := rfl

/-- C3 amended: rendering is total over the two monitored event types
provided the payload object and its currency field are present; every
other missing field degrades to a default or to placeholder text, while
a missing currency (or a missing payload object) raises a TypeError. -/
theorem render_total_with_currency (locale : Int → String) (e : Event)
    (o : StripeObject) (c : String) (hk : knownType e)
    (ho : e.data.object = some o) (hc : o.currency = some c) :
    ∃ s b, formatFailureEmail locale e = Except.ok ⟨some s, some b⟩ :=
  render_ok_aux locale e o c hk ho hc

/-- C3 witness: a charge.failed event with only a currency in its payload
renders successfully. -/
theorem render_total_with_currency_witness :
    ∃ s b, formatFailureEmail testLocale
        { type := "charge.failed", data := { object := some { currency := some "usd" } } }
      = Except.ok ⟨some s, some b⟩ :=
  render_total_with_currency testLocale
    { type := "charge.failed", data := { object := some { currency := some "usd" } } }
    { currency := some "usd" } "usd" (Or.inl rfl) rfl rfl

/-- C4 (confirmed): for any event of an unmonitored type, rendering
returns the distinguished value with no subject and no body, without
error, and the handler classifies the event as Ignored. -/
theorem render_unknown_type_not_applicable (locale : Int → String)
    (send : String → String → Except String Unit) (e : Event)
    (h1 : ¬ e.type = "charge.failed") (h2 : ¬ e.type = "invoice.payment_failed") :
    formatFailureEmail locale e = Except.ok { subject := none, body := none }
    ∧ (handle locale send e).result = ProcessingResult.ignored := by
  have hk' : ¬ (e.type = "charge.failed" ∨ e.type = "invoice.payment_failed") :=
    fun h => h.elim h1 h2
  constructor
  · simp only [formatFailureEmail, if_neg h1, if_neg h2]
  · simp only [handle, if_neg hk']

/-- C4 witness: a concrete unmonitored event renders to the no-content
value and is classified as Ignored. -/
theorem render_unknown_type_not_applicable_witness :
    formatFailureEmail testLocale { type := "payment_intent.created", data := {} }
      = Except.ok { subject := none, body := none }
    ∧ (handle testLocale okSend { type := "payment_intent.created", data := {} }).result
      = ProcessingResult.ignored :=
  render_unknown_type_not_applicable testLocale okSend
    { type := "payment_intent.created", data := {} } (by decide) (by decide)

/-- C5 (confirmed): for a renderable charge.failed event the subject
contains the dollar sign, the amount in minor units divided by 100 with
exactly two fraction digits, and the uppercased currency code; a missing
customer renders as Guest in the body; and at amount 2599 with currency
usd the subject contains the text with 25.99 and USD. -/
theorem charge_subject_amount_currency (locale : Int → String) (e : Event)
    (o : StripeObject) (a : Nat) (c : String)
    (ht : e.type = "charge.failed") (ho : e.data.object = some o)
    (ha : o.amount = some a) (hc : o.currency = some c) :
    ∃ s b, formatFailureEmail locale e = Except.ok ⟨some s, some b⟩
      ∧ strContains s ("$" ++ toFixed2 a ++ " " ++ toUpperCaseJs c)
      ∧ (∃ frac, frac.length = 2
          ∧ toFixed2 a = toString (a / 100) ++ "." ++ frac)
      ∧ (o.customer = none → strContains b "Guest")
      ∧ (a = 2599 → c = "usd" → strContains s "$25.99 USD") := by
  simp only [formatFailureEmail, ht, ho, hc, ha, if_pos]
  refine ⟨_, _, rfl, ?_, ?_, ?_, ?_⟩
  · apply strContains_tail _ "💳 Payment Failure Alert - " _
    rw [show ("💳 Payment Failure Alert - $" : String)
        = "💳 Payment Failure Alert - " ++ "$" from rfl]
    simp only [strAppend_assoc]
  · refine ⟨toString (a % 100 / 10) ++ toString (a % 10), ?_, ?_⟩
    · have hd : ∀ d, d < 10 → (toString d).length = 1 := by decide
      rw [strLength_append, hd (a % 100 / 10) (by omega), hd (a % 10) (by omega)]
    · simp only [toFixed2, strAppend_assoc]
  · intro hcust
    rw [hcust]
    apply strContains_parts _
      ("\n      <h2>🚨 Charge Failed</h2>\n      <p><strong>Amount:</strong> $"
        ++ toFixed2 a ++ " " ++ toUpperCaseJs c
        ++ "</p>\n      <p><strong>Customer ID:</strong> ") _
      ("</p>\n      <p><strong>Failure Code:</strong> "
        ++ jsOr o.failure_code "Unknown"
        ++ "</p>\n      <p><strong>Failure Message:</strong> "
        ++ jsOr o.failure_message "No details provided"
        ++ "</p>\n      <p><strong>Charge ID:</strong> "
        ++ jsStr o.id
        ++ "</p>\n      <p><strong>Time:</strong> "
        ++ (match o.created with | some t => locale (t * 1000) | none => "Invalid Date")
        ++ "</p>\n      \n      <hr>\n      <p><small>View in Stripe Dashboard: <a href=\"https://dashboard.stripe.com/payments/"
        ++ jsStr o.id
        ++ "\">Open Charge</a></small></p>\n    ")
    simp only [jsOr, strAppend_assoc]
  · intro ha2 hc2
    subst ha2
    subst hc2
    decide

/-- C5 witness: the concrete charge.failed event with amount 2599,
currency usd and no customer field. -/
theorem charge_subject_amount_currency_witness :
    ∃ s b, formatFailureEmail testLocale
        { type := "charge.failed",
          data := { object := some { amount := some 2599, currency := some "usd" } } }
      = Except.ok ⟨some s, some b⟩
      ∧ strContains s "$25.99 USD" ∧ strContains b "Guest" := by
  obtain ⟨s, b, hf, h1, h2, h3, h4⟩ := charge_subject_amount_currency testLocale
      { type := "charge.failed",
        data := { object := some { amount := some 2599, currency := some "usd" } } }
      { amount := some 2599, currency := some "usd" } 2599 "usd" rfl rfl rfl rfl
  exact ⟨s, b, hf, h4 rfl rfl, h3 rfl⟩

/-- C6 (confirmed): when the notifier fails with detail d on a renderable
charge.failed event, the handler yields Failed with that detail, the last
appended log entry is the failure line naming charge.failed and d, and
exactly one delivery attempt was made. -/
theorem notifier_failure_terminal_failed (locale : Int → String)
    (send : String → String → Except String Unit) (d : String)
    (e : Event) (o : StripeObject) (c : String)
    (hsend : ∀ s b, send s b = Except.error d)
    (ht : e.type = "charge.failed") (ho : e.data.object = some o)
    (hc : o.currency = some c) :
    (handle locale send e).result = ProcessingResult.failed d
    ∧ (handle locale send e).logMsgs.getLast?
        = some ("Failed to send notification for charge.failed: " ++ d)
    ∧ (handle locale send e).attempts = 1 := by
  obtain ⟨s, b, hf⟩ := render_ok_aux locale e o c (Or.inl ht) ho hc
  have hk' : e.type = "charge.failed" ∨ e.type = "invoice.payment_failed" := Or.inl ht
  simp only [handle, if_pos hk', hf, sendEmail, hsend]
  refine ⟨?_, ?_, ?_⟩
  · trivial
  · rw [ht]; rfl
  · trivial

/-- C6 witness: the concrete charge.failed event delivered through a
notifier that fails with detail quota exceeded. -/
theorem notifier_failure_terminal_failed_witness :
    (handle testLocale (failSend "quota exceeded")
        { type := "charge.failed", data := { object := some { currency := some "usd" } } }).result
      = ProcessingResult.failed "quota exceeded"
    ∧ (handle testLocale (failSend "quota exceeded")
        { type := "charge.failed", data := { object := some { currency := some "usd" } } }).logMsgs.getLast?
      = some "Failed to send notification for charge.failed: quota exceeded"
    ∧ (handle testLocale (failSend "quota exceeded")
        { type := "charge.failed", data := { object := some { currency := some "usd" } } }).attempts = 1 := by
  have h := notifier_failure_terminal_failed testLocale (failSend "quota exceeded")
      "quota exceeded"
      { type := "charge.failed", data := { object := some { currency := some "usd" } } }
      { currency := some "usd" } "usd" (fun _ _ => rfl) rfl rfl rfl
  exact ⟨h.1, h.2.1, h.2.2⟩

/-- C7 (confirmed): the handler always completes with one of the three
verdicts, and every failure raised inside it, whether from rendering or
from delivery, is caught and converted into a Failed verdict together
with the corresponding log entries. -/
theorem handle_total_converts_failures (locale : Int → String)
    (send : String → String → Except String Unit) (e : Event) :
    ((handle locale send e).result = ProcessingResult.processed
      ∨ (handle locale send e).result = ProcessingResult.ignored
      ∨ ∃ d, (handle locale send e).result = ProcessingResult.failed d)
    ∧ (∀ m, knownType e → formatFailureEmail locale e = Except.error m →
        (handle locale send e).result = ProcessingResult.failed m
        ∧ (handle locale send e).logMsgs
            = ["Received webhook: " ++ e.type,
               "Failed to send notification for " ++ e.type ++ ": " ++ m])
    ∧ (∀ out m, knownType e → formatFailureEmail locale e = Except.ok out →
        send (jsStr out.subject) (jsStr out.body) = Except.error m →
        (handle locale send e).result = ProcessingResult.failed m
        ∧ (handle locale send e).logMsgs
            = ["Received webhook: " ++ e.type,
               "Failed to send email: " ++ m,
               "Failed to send notification for " ++ e.type ++ ": " ++ m]) := by
  refine ⟨?_, ?_, ?_⟩
  · by_cases hk : knownType e
    · have hk' : e.type = "charge.failed" ∨ e.type = "invoice.payment_failed" := hk
      cases hf : formatFailureEmail locale e with
      | error m =>
        simp only [handle, if_pos hk', hf]
        exact Or.inr (Or.inr ⟨m, rfl⟩)
      | ok out =>
        cases hs : send (jsStr out.subject) (jsStr out.body) with
        | ok u =>
          simp only [handle, if_pos hk', hf, sendEmail, hs]
          exact Or.inl (by trivial)
        | error m =>
          simp only [handle, if_pos hk', hf, sendEmail, hs]
          exact Or.inr (Or.inr ⟨m, rfl⟩)
    · have hk' : ¬ (e.type = "charge.failed" ∨ e.type = "invoice.payment_failed") := hk
      simp only [handle, if_neg hk']
      exact Or.inr (Or.inl (by trivial))
  · intro m hk hf
    have hk' : e.type = "charge.failed" ∨ e.type = "invoice.payment_failed" := hk
    simp only [handle, if_pos hk', hf]
    refine ⟨?_, ?_⟩ <;> trivial
  · intro out m hk hf hs
    have hk' : e.type = "charge.failed" ∨ e.type = "invoice.payment_failed" := hk
    simp only [handle, if_pos hk', hf, sendEmail, hs]
    refine ⟨?_, ?_⟩ <;> trivial

/-- C7 witness: a charge.failed event with no payload object makes
rendering throw; the handler converts it into the Failed verdict with the
two expected log entries. -/
theorem handle_total_converts_failures_witness :
    (handle testLocale okSend { type := "charge.failed", data := {} }).result
      = ProcessingResult.failed "Cannot read properties of undefined (reading customer)"
    ∧ (handle testLocale okSend { type := "charge.failed", data := {} }).logMsgs
      = ["Received webhook: charge.failed",
         "Failed to send notification for charge.failed: Cannot read properties of undefined (reading customer)"] := by
  have h := (handle_total_converts_failures testLocale okSend
      { type := "charge.failed", data := {} }).2.1
      "Cannot read properties of undefined (reading customer)" (Or.inl rfl) rfl
  exact ⟨h.1, h.2⟩

/-- A fully populated invoice payload whose next_payment_attempt field is
present with value 0. -/
def invoiceZeroRetryObject : StripeObject :=
  { customer := some "cus_1"
    currency := some "usd"
    amount_due := some 1000
    attempt_count := some 1
    id := some "in_1"
    next_payment_attempt := some 0 }

/-- An invoice.payment_failed event carrying that payload. -/
def invoiceZeroRetryEvent : Event :=
  { type := "invoice.payment_failed"
    data := { object := some invoiceZeroRetryObject } }

/-- Interpolating a present string value yields the value itself. -/
theorem jsStr_some (s : String) : jsStr (some s) = s := rfl

/-- Interpolating an absent value yields the text undefined. -/
theorem jsStr_none : jsStr none = "undefined" := rfl

set_option maxRecDepth 100000 in
/-- C8 counterexample: an invoice event whose next_payment_attempt is
present with value 0 renders the no-retry text and no timestamp derived
from the value, because 0 is falsy in the conditional of line 95. -/
theorem next_attempt_zero_no_timestamp :
    (match invoiceZeroRetryEvent.data.object with
      | some o => o.next_payment_attempt
      | none => none) = some 0
    ∧ strContains (bodyOf (formatFailureEmail testLocale invoiceZeroRetryEvent))
        "No retry scheduled"
    ∧ ¬ strContains (bodyOf (formatFailureEmail testLocale invoiceZeroRetryEvent))
        (testLocale (0 * 1000)) := by
  decide

/-- C8 amended: for a renderable invoice.payment_failed event, if
next_payment_attempt is absent or 0 the body states no retry is
scheduled, and if it is present and nonzero the body contains the
formatted timestamp derived from its unix-seconds value. -/
theorem invoice_next_attempt_rendering (locale : Int → String) (e : Event)
    (o : StripeObject) (c : String)
    (ht : e.type = "invoice.payment_failed") (ho : e.data.object = some o)
    (hc : o.currency = some c) :
    ∃ s b, formatFailureEmail locale e = Except.ok ⟨some s, some b⟩
      ∧ (o.next_payment_attempt = none → strContains b "No retry scheduled")
      ∧ (o.next_payment_attempt = some 0 → strContains b "No retry scheduled")
      ∧ (∀ t, o.next_payment_attempt = some t → ¬ t = 0 →
          strContains b (locale (t * 1000))) := by
  have hty : ¬ (e.type = "charge.failed") := by rw [ht]; decide
  simp only [formatFailureEmail, ht, ho, hc, if_neg hty, if_pos]
  refine ⟨_, _, rfl, ?_, ?_, ?_⟩
  · intro hn
    simp only [hn]
    apply strContains_parts _
      ("\n      <h2>🚨 Invoice Payment Failed</h2>\n      <p><strong>Amount:</strong> $"
        ++ (match o.amount_due with | some a => toFixed2 a | none => "NaN")
        ++ " " ++ toUpperCaseJs c
        ++ "</p>\n      <p><strong>Customer ID:</strong> "
        ++ jsStr o.customer
        ++ "</p>\n      <p><strong>Invoice Number:</strong> "
        ++ jsOr o.number "Draft"
        ++ "</p>\n      <p><strong>Subscription ID:</strong> "
        ++ jsOr o.subscription "N/A"
        ++ "</p>\n      <p><strong>Attempt Count:</strong> "
        ++ jsNum o.attempt_count
        ++ "</p>\n      <p><strong>Next Attempt:</strong> ") _
      ("</p>\n      \n      <hr>\n      <p><small>View in Stripe Dashboard: <a href=\"https://dashboard.stripe.com/invoices/"
        ++ jsStr o.id
        ++ "\">Open Invoice</a></small></p>\n    ")
    simp only [strAppend_assoc]
  · intro hn
    simp only [hn, if_pos]
    apply strContains_parts _
      ("\n      <h2>🚨 Invoice Payment Failed</h2>\n      <p><strong>Amount:</strong> $"
        ++ (match o.amount_due with | some a => toFixed2 a | none => "NaN")
        ++ " " ++ toUpperCaseJs c
        ++ "</p>\n      <p><strong>Customer ID:</strong> "
        ++ jsStr o.customer
        ++ "</p>\n      <p><strong>Invoice Number:</strong> "
        ++ jsOr o.number "Draft"
        ++ "</p>\n      <p><strong>Subscription ID:</strong> "
        ++ jsOr o.subscription "N/A"
        ++ "</p>\n      <p><strong>Attempt Count:</strong> "
        ++ jsNum o.attempt_count
        ++ "</p>\n      <p><strong>Next Attempt:</strong> ") _
      ("</p>\n      \n      <hr>\n      <p><small>View in Stripe Dashboard: <a href=\"https://dashboard.stripe.com/invoices/"
        ++ jsStr o.id
        ++ "\">Open Invoice</a></small></p>\n    ")
    simp only [strAppend_assoc]
  · intro t hn hnz
    simp only [hn, if_neg hnz]
    apply strContains_parts _
      ("\n      <h2>🚨 Invoice Payment Failed</h2>\n      <p><strong>Amount:</strong> $"
        ++ (match o.amount_due with | some a => toFixed2 a | none => "NaN")
        ++ " " ++ toUpperCaseJs c
        ++ "</p>\n      <p><strong>Customer ID:</strong> "
        ++ jsStr o.customer
        ++ "</p>\n      <p><strong>Invoice Number:</strong> "
        ++ jsOr o.number "Draft"
        ++ "</p>\n      <p><strong>Subscription ID:</strong> "
        ++ jsOr o.subscription "N/A"
        ++ "</p>\n      <p><strong>Attempt Count:</strong> "
        ++ jsNum o.attempt_count
        ++ "</p>\n      <p><strong>Next Attempt:</strong> ") _
      ("</p>\n      \n      <hr>\n      <p><small>View in Stripe Dashboard: <a href=\"https://dashboard.stripe.com/invoices/"
        ++ jsStr o.id
        ++ "\">Open Invoice</a></small></p>\n    ")
    simp only [strAppend_assoc]

/-- C8 witness: a renderable invoice event without a next_payment_attempt
field renders the no-retry text. -/
theorem invoice_next_attempt_rendering_witness :
    ∃ s b, formatFailureEmail testLocale
        { type := "invoice.payment_failed",
          data := { object := some { currency := some "usd" } } }
      = Except.ok ⟨some s, some b⟩
      ∧ strContains b "No retry scheduled" := by
  obtain ⟨s, b, hf, h1, h2, h3⟩ := invoice_next_attempt_rendering testLocale
      { type := "invoice.payment_failed",
        data := { object := some { currency := some "usd" } } }
      { currency := some "usd" } "usd" rfl rfl rfl
  exact ⟨s, b, hf, h1 rfl⟩

/-- C9 (confirmed): rendering is deterministic; two calls on the same
event under the same environment yield the same outcome. -/
theorem render_idempotent (locale : Int → String) (e : Event)
    (r₁ r₂ : Except String RenderOut)
    (h₁ : formatFailureEmail locale e = r₁)
    (h₂ : formatFailureEmail locale e = r₂) : r₁ = r₂ := by
  rw [← h₁, ← h₂]

/-- C9 witness: two renderings of a concrete event coincide. -/
theorem render_idempotent_witness :
    formatFailureEmail testLocale { type := "customer.created", data := {} }
      = formatFailureEmail testLocale { type := "customer.created", data := {} } :=
  render_idempotent testLocale { type := "customer.created", data := {} } _ _ rfl rfl

/-- C10 (confirmed): the invoice deep link is built from the payload
field id of data.object; when that field is present the link contains it,
and when it is absent the body still renders with a link whose path ends
in the literal text undefined. -/
theorem invoice_link_uses_object_id (locale : Int → String) (e : Event)
    (o : StripeObject) (c : String)
    (ht : e.type = "invoice.payment_failed") (ho : e.data.object = some o)
    (hc : o.currency = some c) :
    ∃ s b, formatFailureEmail locale e = Except.ok ⟨some s, some b⟩
      ∧ (∀ i, o.id = some i →
          strContains b ("https://dashboard.stripe.com/invoices/" ++ i))
      ∧ (o.id = none →
          strContains b "https://dashboard.stripe.com/invoices/undefined\"") := by
  have hty : ¬ (e.type = "charge.failed") := by rw [ht]; decide
  simp only [formatFailureEmail, ht, ho, hc, if_neg hty, if_pos]
  refine ⟨_, _, rfl, ?_, ?_⟩
  · intro i hi
    simp only [hi, jsStr_some]
    rw [show ("</p>\n      \n      <hr>\n      <p><small>View in Stripe Dashboard: <a href=\"https://dashboard.stripe.com/invoices/" : String)
        = "</p>\n      \n      <hr>\n      <p><small>View in Stripe Dashboard: <a href=\""
          ++ "https://dashboard.stripe.com/invoices/" from rfl]
    apply strContains_parts _
      ("\n      <h2>🚨 Invoice Payment Failed</h2>\n      <p><strong>Amount:</strong> $"
        ++ (match o.amount_due with | some a => toFixed2 a | none => "NaN")
        ++ " " ++ toUpperCaseJs c
        ++ "</p>\n      <p><strong>Customer ID:</strong> "
        ++ jsStr o.customer
        ++ "</p>\n      <p><strong>Invoice Number:</strong> "
        ++ jsOr o.number "Draft"
        ++ "</p>\n      <p><strong>Subscription ID:</strong> "
        ++ jsOr o.subscription "N/A"
        ++ "</p>\n      <p><strong>Attempt Count:</strong> "
        ++ jsNum o.attempt_count
        ++ "</p>\n      <p><strong>Next Attempt:</strong> "
        ++ (match o.next_payment_attempt with
            | some t => if t = 0 then "No retry scheduled" else locale (t * 1000)
            | none => "No retry scheduled")
        ++ "</p>\n      \n      <hr>\n      <p><small>View in Stripe Dashboard: <a href=\"") _
      ("\">Open Invoice</a></small></p>\n    ")
    simp only [strAppend_assoc]
  · intro hi
    simp only [hi, jsStr_none]
    rw [show ("https://dashboard.stripe.com/invoices/undefined\"" : String)
        = "https://dashboard.stripe.com/invoices/" ++ ("undefined" ++ "\"") from rfl]
    rw [show ("</p>\n      \n      <hr>\n      <p><small>View in Stripe Dashboard: <a href=\"https://dashboard.stripe.com/invoices/" : String)
        = "</p>\n      \n      <hr>\n      <p><small>View in Stripe Dashboard: <a href=\""
          ++ "https://dashboard.stripe.com/invoices/" from rfl]
    rw [show ("\">Open Invoice</a></small></p>\n    " : String)
        = "\"" ++ ">Open Invoice</a></small></p>\n    " from rfl]
    apply strContains_parts _
      ("\n      <h2>🚨 Invoice Payment Failed</h2>\n      <p><strong>Amount:</strong> $"
        ++ (match o.amount_due with | some a => toFixed2 a | none => "NaN")
        ++ " " ++ toUpperCaseJs c
        ++ "</p>\n      <p><strong>Customer ID:</strong> "
        ++ jsStr o.customer
        ++ "</p>\n      <p><strong>Invoice Number:</strong> "
        ++ jsOr o.number "Draft"
        ++ "</p>\n      <p><strong>Subscription ID:</strong> "
        ++ jsOr o.subscription "N/A"
        ++ "</p>\n      <p><strong>Attempt Count:</strong> "
        ++ jsNum o.attempt_count
        ++ "</p>\n      <p><strong>Next Attempt:</strong> "
        ++ (match o.next_payment_attempt with
            | some t => if t = 0 then "No retry scheduled" else locale (t * 1000)
            | none => "No retry scheduled")
        ++ "</p>\n      \n      <hr>\n      <p><small>View in Stripe Dashboard: <a href=\"") _
      (">Open Invoice</a></small></p>\n    ")
    simp only [strAppend_assoc]

/-- C10 witness: a renderable invoice event without an id field renders a
link whose path ends in the text undefined. -/
theorem invoice_link_uses_object_id_witness :
    ∃ s b, formatFailureEmail testLocale
        { type := "invoice.payment_failed",
          data := { object := some { currency := some "usd" } } }
      = Except.ok ⟨some s, some b⟩
      ∧ strContains b "https://dashboard.stripe.com/invoices/undefined\"" := by
  obtain ⟨s, b, hf, h1, h2⟩ := invoice_link_uses_object_id testLocale
      { type := "invoice.payment_failed",
        data := { object := some { currency := some "usd" } } }
      { currency := some "usd" } "usd" rfl rfl rfl
  exact ⟨s, b, hf, h2 rfl⟩
